import Mathlib

/-!
Shallow embedding of the SPIR-V → LLVM translation engine
(`lib/SPIRV/SPRVReader.cpp` together with the constants of
`lib/SPIRVInternal.h`), restricted to the parts needed by the
verified properties: the value map with its placeholder protocol,
function-header emission, addressing-model handling, the comparison
widening hooks, convert-builtin naming, `OpCopyMemorySized` lowering,
builtin-call declaration/emission, and the `ReadSPRV` entry point.

Handles (SPIR-V values, LLVM values, instructions, globals) are
represented by natural numbers; association lists stand for the
`DenseMap`s of the source.
-/

namespace SPRVReader

/-- SPIR-V storage classes used by the reader (`SPRVSC_*`).  Only the
classes actually consulted by the translated code paths are included. -/
inductive SPRVStorageClass where
  | functionSC
  | crossWorkgroup
  | uniformConstant
  | workgroup
  | genericSC
  | privateSC
  deriving DecidableEq

/-- SPIR-V types (`SPRVType`), restricted to the scalar, vector,
pointer and array forms consulted by the verified code paths. -/
inductive SPRVType where
  | voidT
  | boolT
  | intT (bits : Nat) (signed : Bool)
  | floatT (bits : Nat)
  | vectorT (elem : SPRVType) (count : Nat)
  | pointerT (sc : SPRVStorageClass) (elem : SPRVType)
  | arrayT (elem : SPRVType) (len : Nat)
  deriving DecidableEq

/-- LLVM IR types.  `invalid` stands for the result of paths on which
the source asserts (`assert(0 && "Invalid type")`). -/
inductive LLVMType where
  | voidT
  | intT (bits : Nat)
  | halfT
  | floatT
  | doubleT
  | vectorT (elem : LLVMType) (count : Nat)
  | pointerT (elem : LLVMType) (addrSpace : Nat)
  | arrayT (elem : LLVMType) (len : Nat)
  | invalid
  deriving DecidableEq

/-- `SPIRSPRVAddrSpaceMap::rmap`: SPIR-V storage class to OpenCL SPIR
address-space number (SPIRVInternal.h, `SPIRAddressSpace` and its map:
Function→0 Private, CrossWorkgroup→1 Global, UniformConstant→2 Constant,
Workgroup→3 Local, Generic→4 Generic).  The legacy `Private` class also
denotes the private address space 0. -/
def addrSpaceRmap : SPRVStorageClass → Nat
  | .functionSC => 0
  | .crossWorkgroup => 1
  | .uniformConstant => 2
  | .workgroup => 3
  | .genericSC => 4
  | .privateSC => 0

/-- `SPRVToLLVM::transFPType` (SPRVReader.cpp:431-441). -/
def transFPType (bits : Nat) : LLVMType :=
  match bits with
  | 16 => .halfT
  | 32 => .floatT
  | 64 => .doubleT
  | _ => .invalid

/-- `SPRVToLLVM::transType` (SPRVReader.cpp:450-523), restricted to the
void/bool/int/float/vector/pointer/array cases. -/
def transType : SPRVType → LLVMType
  | .voidT => .voidT
  | .boolT => .intT 1
  | .intT n _ => .intT n
  | .floatT n => transFPType n
  | .vectorT e n => .vectorT (transType e) n
  | .pointerT sc e => .pointerT (transType e) (addrSpaceRmap sc)
  | .arrayT e n => .arrayT (transType e) n

/-- `StringRef::startswith`, written over the character lists so that it
evaluates inside the kernel. -/
def strStartsWith (s pre : String) : Bool :=
  pre.data.isPrefixOf s.data

/-! ## Association-list helpers (the `DenseMap`s of the source) -/

/-- First-match lookup in an association list keyed by handles. -/
def lookupAL {α : Type} (l : List (Nat × α)) (k : Nat) : Option α :=
  (l.find? (fun p => p.1 == k)).map (fun p => p.2)

/-- Overwriting insert, as `Map[K] = V` on a `DenseMap`. -/
def setAL {α : Type} (l : List (Nat × α)) (k : Nat) (v : α) : List (Nat × α) :=
  (k, v) :: l.filter (fun p => p.1 != k)

/-! ## The value map and the placeholder protocol (`SPRVToLLVM::mapValue`) -/

/-- The part of the translator state read and written by `mapValue`:
the SPIR-V→LLVM value map, the registry of load instructions with their
pointer operands, the module's globals with their names, the
instructions attached to the module, and the def-use edges
`(user, used)` between LLVM values. -/
structure TransState where
  valueMap : List (Nat × Nat)
  loadOperand : List (Nat × Nat)
  globalNames : List (Nat × String)
  moduleInsts : List Nat
  useEdges : List (Nat × Nat)
  deriving DecidableEq

/-- `Value::replaceAllUsesWith`: every use edge targeting `old` is
retargeted to `new`. -/
def replaceAllUses (edges : List (Nat × Nat)) (old new : Nat) : List (Nat × Nat) :=
  edges.map (fun e => if e.2 == old then (e.1, new) else e)

/-- `Value::dropAllReferences`: the value stops using its operands. -/
def dropReferencesOf (edges : List (Nat × Nat)) (v : Nat) : List (Nat × Nat) :=
  edges.filter (fun e => e.1 != v)

/-- `SPRVToLLVM::mapValue` (SPRVReader.cpp:243-262).  `none` models a
failure of the source's assertion (the existing entry must be a load of
a global named `placeholder.*`); otherwise the pair of the updated
state and the returned value is produced.  On the second write the
placeholder load's uses are retargeted to `v`, the load and its backing
global drop their references and are detached from the module, and the
map entry is overwritten. -/
def mapValue (st : TransState) (bv v : Nat) : Option (TransState × Nat) :=
  match lookupAL st.valueMap bv with
  | none => some ({ st with valueMap := setAL st.valueMap bv v }, v)
  | some old =>
    if old == v then
      some (st, v)
    else
      match lookupAL st.loadOperand old with
      | none => none
      | some g =>
        match lookupAL st.globalNames g with
        | none => none
        | some nm =>
          if strStartsWith nm "placeholder." then
            some ({ valueMap := setAL st.valueMap bv v
                    loadOperand := st.loadOperand.filter (fun p => p.1 != old)
                    globalNames := st.globalNames.filter (fun p => p.1 != g)
                    moduleInsts := st.moduleInsts.filter (fun i => i != old)
                    useEdges :=
                      dropReferencesOf
                        (dropReferencesOf (replaceAllUses st.useEdges old v) old) g },
                  v)
          else none

/-! ## Function-header emission (`SPRVToLLVM::transFunction`) -/

/-- LLVM linkage kinds; the translated SPIR-V linkage is supplied as a
map parameter since `SPIRSPRVLinkageTypeMap` lives outside `src/`. -/
inductive LLVMLinkage where
  | externalLink
  | internalLink
  | other (n : Nat)
  deriving DecidableEq

/-- LLVM calling conventions relevant to the reader. -/
inductive CallConv where
  | c
  | spirFunc
  | spirKernel
  deriving DecidableEq

/-- LLVM function attributes relevant to the reader. -/
inductive FnAttr where
  | noUnwind
  | readNone
  | readOnly
  | alwaysInline
  | noInline
  deriving DecidableEq

/-- `Function::isIntrinsic` of the targeted LLVM: the name starts with
`llvm.`. -/
def isIntrinsicName (nm : String) : Bool :=
  strStartsWith nm "llvm."

/-- `SPRVToLLVM::isFuncNoUnwind` (SPRVReader.cpp:275): constantly true. -/
def isFuncNoUnwind : Bool := true

/-- The header data of an emitted LLVM function. -/
structure EmittedFunction where
  name : String
  linkage : LLVMLinkage
  cc : CallConv
  fnAttrs : List FnAttr
  deriving DecidableEq

/-- Header part of `SPRVToLLVM::transFunction` (SPRVReader.cpp:1310-1331):
linkage is external for kernels and the translated SPIR-V linkage kind
otherwise; calling convention and function attributes (no-unwind plus
the translated function-control mask) are set only when the created
function is not an intrinsic.  A fresh LLVM function has calling
convention `c` and no attributes. -/
def transFunctionHeader (isKernel : Bool) (linkRmap : Nat → LLVMLinkage)
    (linkKind : Nat) (name : String) (ctlMaskAttrs : List FnAttr) :
    EmittedFunction :=
  let linkage := if isKernel then LLVMLinkage.externalLink else linkRmap linkKind
  let f : EmittedFunction := ⟨name, linkage, CallConv.c, []⟩
  if isIntrinsicName name then f
  else
    { f with
      cc := if isKernel then CallConv.spirKernel else CallConv.spirFunc
      fnAttrs :=
        (if isFuncNoUnwind then [FnAttr.noUnwind] else []) ++ ctlMaskAttrs }

/-! ## Addressing model (`SPRVToLLVM::transAddressingModel`) -/

/-- SPIR-V addressing models; `other` covers the remaining enum values
reaching the `default` branch of the source's switch. -/
inductive SPRVAddressingModel where
  | logical
  | physical32
  | physical64
  | other (n : Nat)
  deriving DecidableEq

/-- Target-related module fields; a fresh `Module` has both unset. -/
structure ModuleTarget where
  targetTriple : Option String
  dataLayout : Option String
  deriving DecidableEq

/-- `SPIR_TARGETTRIPLE32` (SPIRVInternal.h:171). -/
def spirTargetTriple32 : String := "spir-unknown-unknown"

/-- `SPIR_TARGETTRIPLE64` (SPIRVInternal.h:172). -/
def spirTargetTriple64 : String := "spir64-unknown-unknown"

/-- `SPIR_DATALAYOUT32` (SPIRVInternal.h:173-177). -/
def spirDataLayout32 : String :=
  "e-p:32:32:32-i1:8:8-i8:8:8-i16:16:16-i32:32:32" ++
  "-i64:64:64-f32:32:32-f64:64:64-v16:16:16-v24:32:32" ++
  "-v32:32:32-v48:64:64-v64:64:64-v96:128:128" ++
  "-v128:128:128-v192:256:256-v256:256:256" ++
  "-v512:512:512-v1024:1024:1024"

/-- `SPIR_DATALAYOUT64` (SPIRVInternal.h:178-182). -/
def spirDataLayout64 : String :=
  "e-p:64:64:64-i1:8:8-i8:8:8-i16:16:16-i32:32:32" ++
  "-i64:64:64-f32:32:32-f64:64:64-v16:16:16-v24:32:32" ++
  "-v32:32:32-v48:64:64-v64:64:64-v96:128:128" ++
  "-v128:128:128-v192:256:256-v256:256:256" ++
  "-v512:512:512-v1024:1024:1024"

/-- Error categories surfaced through the module's error log. -/
inductive TransError where
  | invalidAddressingModel
  deriving DecidableEq

/-- `SPRVToLLVM::transAddressingModel` (SPRVReader.cpp:1501-1520).
Physical64 and Physical32 set the fixed triple and data layout;
Logical leaves the module untouched.  Modelled from the spec: the
`SPRVCKRT` error-check macro of the default branch (its definition is
outside `src/`) fails the translation with an invalid-addressing-model
error. -/
def transAddressingModel (am : SPRVAddressingModel) (m : ModuleTarget) :
    Except TransError ModuleTarget :=
  match am with
  | .physical64 =>
    .ok { targetTriple := some spirTargetTriple64, dataLayout := some spirDataLayout64 }
  | .physical32 =>
    .ok { targetTriple := some spirTargetTriple32, dataLayout := some spirDataLayout32 }
  | .logical => .ok m
  | .other _ => .error .invalidAddressingModel

/-! ## Comparison widening hooks -/

/-- `SPRVType::isTypeVectorOrScalarBool`. -/
def isTypeVectorOrScalarBool : SPRVType → Bool
  | .boolT => true
  | .vectorT .boolT _ => true
  | _ => false

/-- `SPRVToLLVM::transOCLBuiltinFromInstPreproc` (SPRVReader.cpp:1377-1392):
for a compare instruction a bool return type is widened to i32, a
vector-of-bool return type to a vector of i32 of the same count; any
other compare return type hits `assert(0)` and leaves `RetTy` alone.
`bt` is `BI->getType()` when the instruction has a type. -/
def preprocRetTy (isCmp : Bool) (bt : Option SPRVType) (retTy : LLVMType) :
    LLVMType :=
  match bt with
  | none => retTy
  | some t =>
    if isCmp then
      match t with
      | .boolT => .intT 32
      | .vectorT .boolT n => .vectorT (.intT 32) n
      | _ => retTy
    else retTy

/-- `SPRVToLLVM::transOCLBuiltinFromInstPostproc` (SPRVReader.cpp:1394-1403):
for a compare whose SPIR-V type is bool or vector of bool, the call is
wrapped in a `Trunc` back to the translated original type; the result
is the type truncated to, if any. -/
def postprocTrunc (isCmp : Bool) (bt : Option SPRVType) : Option LLVMType :=
  match bt with
  | none => none
  | some t =>
    if isCmp && isTypeVectorOrScalarBool t then some (transType t) else none

/-- Shape of one emitted builtin call: the return type of the call and
the type the result is truncated back to (if the post-hook fired). -/
structure BuiltinCallShape where
  callRetTy : LLVMType
  truncTo : Option LLVMType
  deriving DecidableEq

/-- The return-type plumbing of `SPRVToLLVM::transOCLBuiltinFromInst`
(SPRVReader.cpp:1405-1444): the initial return type is the translated
instruction type (void when absent), the pre-hook rewrites it, the call
is emitted with the rewritten type and the post-hook appends the
truncation. -/
def transOCLBuiltinCallShape (isCmp : Bool) (bt : Option SPRVType) :
    BuiltinCallShape :=
  let retTy0 := match bt with | some t => transType t | none => .voidT
  ⟨preprocRetTy isCmp bt retTy0, postprocTrunc isCmp bt⟩

/-! ## Convert-builtin naming and dispatch -/

/-- The SPIR-V conversion opcodes (`isCvtOpCode` family). -/
inductive CvtOpCode where
  | convertFToU
  | convertFToS
  | convertUToF
  | convertSToF
  | uConvert
  | sConvert
  | fConvert
  | satConvertSToU
  | satConvertUToS
  deriving DecidableEq

/-- Modelled from the spec: `isCvtFromUnsignedOpCode` (declared in the
libSPIRV sources missing from `src/`) holds for conversions whose
source operand is unsigned. -/
def isCvtFromUnsignedOpCode : CvtOpCode → Bool
  | .convertUToF => true
  | .uConvert => true
  | .satConvertUToS => true
  | _ => false

/-- Modelled from the spec: `isCvtToUnsignedOpCode` (declared in the
libSPIRV sources missing from `src/`) holds for conversions whose
destination is unsigned. -/
def isCvtToUnsignedOpCode : CvtOpCode → Bool
  | .convertFToU => true
  | .uConvert => true
  | .satConvertSToU => true
  | _ => false

/-- SPIR-V FP rounding modes. -/
inductive FPRoundingMode where
  | rte
  | rtz
  | rtp
  | rtn
  deriving DecidableEq

/-- Modelled from the spec: `SPIRSPRVFPRoundingModeMap::rmap` (outside
`src/`) yields the rounding suffix literals, as listed in
`kSPIRVPostfix` (SPIRVInternal.h:335-341). -/
def fpRoundingModeName : FPRoundingMode → String
  | .rte => "rte"
  | .rtz => "rtz"
  | .rtp => "rtp"
  | .rtn => "rtn"

/-- Modelled from the spec: `mapSPRVTypeToOpenCLType` (outside `src/`)
produces the OpenCL name of a type under the given signedness, as the
in-`src/` sibling `transTypeToOCLTypeName` does (uchar/ushort/uint/
ulong for unsigned integers, half/float/double for floats, the element
name followed by the count for vectors). -/
def mapSPRVTypeToOpenCLType : SPRVType → Bool → String
  | .boolT, _ => "bool"
  | .intT bits _, signed =>
    (if signed then "" else "u") ++
      (match bits with
       | 8 => "char"
       | 16 => "short"
       | 32 => "int"
       | 64 => "long"
       | _ => "invalid")
  | .floatT bits, _ =>
    (match bits with
     | 16 => "half"
     | 32 => "float"
     | 64 => "double"
     | _ => "invalid")
  | .vectorT e n, signed => mapSPRVTypeToOpenCLType e signed ++ toString n
  | _, _ => "invalid"

/-- `SPRVToLLVM::getOCLConvertBuiltinName` (SPRVReader.cpp:1908-1928):
optional `u` prefix for unsigned sources, `convert_`, the OpenCL name
of the destination type (named unsigned exactly when the conversion
targets an unsigned type), `_sat` when saturated, `_<rounding>` when a
rounding mode is present. -/
def getOCLConvertBuiltinName (oc : CvtOpCode) (destTy : SPRVType)
    (saturated : Bool) (rounding : Option FPRoundingMode) : String :=
  (if isCvtFromUnsignedOpCode oc then "u" else "")
    ++ "convert_"
    ++ mapSPRVTypeToOpenCLType destTy (! isCvtToUnsignedOpCode oc)
    ++ (if saturated then "_sat" else "")
    ++ (match rounding with
        | some r => "_" ++ fpRoundingModeName r
        | none => "")

/-- How a conversion instruction is lowered. -/
inductive CvtLowering where
  | builtinCall (unmangledName : String)
  | directCast
  deriving DecidableEq

/-- The conversion arm of the instruction dispatcher
(SPRVReader.cpp:1282-1290): a conversion carrying an FP rounding mode
or the saturated flag becomes a builtin call named by
`getOCLConvertBuiltinName`; otherwise a direct IR cast is emitted. -/
def transCvtDispatch (oc : CvtOpCode) (destTy : SPRVType)
    (saturated : Bool) (rounding : Option FPRoundingMode) : CvtLowering :=
  if rounding.isSome || saturated then
    .builtinCall (getOCLConvertBuiltinName oc destTy saturated rounding)
  else
    .directCast

/-! ## `OpCopyMemorySized` lowering -/

/-- One argument of an emitted call: a translated operand or a constant
integer of a given LLVM type. -/
inductive CallArg where
  | operand (v : Nat)
  | constInt (ty : LLVMType) (value : Nat)
  deriving DecidableEq

/-- The emitted `llvm.memcpy` call: callee name and argument list. -/
structure MemCpyCall where
  funcName : String
  args : List CallArg
  deriving DecidableEq

/-- `SPRVType::getPointerStorageClass`, defined on pointer types. -/
def getPointerStorageClass : SPRVType → Option SPRVStorageClass
  | .pointerT sc _ => some sc
  | _ => none

/-- `SPRVType::getBitWidth` on integer types. -/
def intTypeBitWidth : SPRVType → Nat
  | .intT n _ => n
  | _ => 0

/-- The `OpCopyMemorySized` case of `transValueWithoutDecoration`
(SPRVReader.cpp:1069-1112): the callee name is `llvm.memcpy` followed
by `.p0i8` when the target (destination) pointer's storage class is
`Private` and `.p1i8` otherwise, the same for the source pointer, then
`.i32` when the size type is 32 bits wide and `.i64` otherwise; the
call receives the translated destination, source and size, the
alignment as an i32 constant and the volatile flag as an i1 constant. -/
def transCopyMemorySized (targetTy sourceTy sizeTy : SPRVType)
    (dstV srcV sizeV alignment : Nat) (isVolatile : Bool) : MemCpyCall :=
  let n1 := if getPointerStorageClass targetTy = some .privateSC
            then ".p0i8" else ".p1i8"
  let n2 := if getPointerStorageClass sourceTy = some .privateSC
            then ".p0i8" else ".p1i8"
  let n3 := if intTypeBitWidth sizeTy = 32 then ".i32" else ".i64"
  { funcName := "llvm.memcpy" ++ n1 ++ n2 ++ n3
    args := [CallArg.operand dstV, CallArg.operand srcV, CallArg.operand sizeV,
             CallArg.constInt (.intT 32) alignment,
             CallArg.constInt (.intT 1) (if isVolatile then 1 else 0)] }

/-! ## Builtin-call declaration and call-site emission -/

/-- An LLVM function type: return type and parameter types. -/
structure LLVMFnTy where
  ret : LLVMType
  params : List LLVMType
  deriving DecidableEq

/-- A function declaration living in the emitted module. -/
structure FnDecl where
  name : String
  fnTy : LLVMFnTy
  cc : CallConv
  fnAttrs : List FnAttr
  deriving DecidableEq

/-- `Module::getFunction`: the declaration with the given name. -/
def getFunction (fns : List FnDecl) (nm : String) : Option FnDecl :=
  fns.find? (fun f => f.name == nm)

/-- A builtin declaration as created by the emitters:
`Function::Create` + `setCallingConv(SPIR_FUNC)` + `addFnAttr(NoUnwind)`
under `isFuncNoUnwind()`. -/
def newBuiltinDecl (nm : String) (ft : LLVMFnTy) : FnDecl :=
  ⟨nm, ft, CallConv.spirFunc, if isFuncNoUnwind then [FnAttr.noUnwind] else []⟩

/-- The outcome of emitting one external-builtin call: the updated
function table, the callee, whether a declaration was created, and the
calling convention and attributes placed on the call site. -/
structure EmitResult where
  fns : List FnDecl
  callee : FnDecl
  createdDecl : Bool
  callCC : CallConv
  callAttrs : List FnAttr
  deriving DecidableEq

/-- `SPRVToLLVM::setAttrByCalledFunc` (SPRVReader.cpp:334-342): an
intrinsic callee leaves the call site at its defaults, otherwise the
callee's calling convention and attributes are copied onto it. -/
def setAttrByCalledFuncOn (callee : FnDecl) : CallConv × List FnAttr :=
  if isIntrinsicName callee.name then (CallConv.c, [])
  else (callee.cc, callee.fnAttrs)

/-- `SPRVToLLVM::transOCLBuiltinFromInst` (SPRVReader.cpp:1405-1444),
declaration and call-site part: a declaration is created when the
mangled name is absent or the present declaration's type disagrees with
the required function type; the call site is set from the callee. -/
def emitInstBuiltinCall (fns : List FnDecl) (mangled : String) (ft : LLVMFnTy) :
    EmitResult :=
  match getFunction fns mangled with
  | some f =>
    if f.fnTy = ft then
      let ca := setAttrByCalledFuncOn f
      ⟨fns, f, false, ca.1, ca.2⟩
    else
      let nf := newBuiltinDecl mangled ft
      let ca := setAttrByCalledFuncOn nf
      ⟨fns ++ [nf], nf, true, ca.1, ca.2⟩
  | none =>
    let nf := newBuiltinDecl mangled ft
    let ca := setAttrByCalledFuncOn nf
    ⟨fns ++ [nf], nf, true, ca.1, ca.2⟩

/-- `SPRVToLLVM::transOCLAtomic` (SPRVReader.cpp:1680-1703),
declaration and call-site part: the declaration is created only when
the mangled name is absent (`if (!Func)`), with no function-type
comparison; the call site is set from the callee. -/
def emitAtomicCall (fns : List FnDecl) (mangled : String) (ft : LLVMFnTy) :
    EmitResult :=
  match getFunction fns mangled with
  | some f =>
    let ca := setAttrByCalledFuncOn f
    ⟨fns, f, false, ca.1, ca.2⟩
  | none =>
    let nf := newBuiltinDecl mangled ft
    let ca := setAttrByCalledFuncOn nf
    ⟨fns ++ [nf], nf, true, ca.1, ca.2⟩

/-- `SPRVToLLVM::transOCLBarrierFence` (SPRVReader.cpp:1822-1859),
declaration and call-site part: identical presence-only logic. -/
def emitBarrierFenceCall (fns : List FnDecl) (mangled : String) (ft : LLVMFnTy) :
    EmitResult :=
  match getFunction fns mangled with
  | some f =>
    let ca := setAttrByCalledFuncOn f
    ⟨fns, f, false, ca.1, ca.2⟩
  | none =>
    let nf := newBuiltinDecl mangled ft
    let ca := setAttrByCalledFuncOn nf
    ⟨fns ++ [nf], nf, true, ca.1, ca.2⟩

/-- `SPRVToLLVM::transOCLBuiltinFromExtInst` (SPRVReader.cpp:1741-1820),
declaration and call-site part: the declaration is created only when
the mangled name is absent; the call site receives the callee's calling
convention (`setCallingConv`) and a no-unwind attribute (`addFnAttr`),
not a copy of the callee's attribute list. -/
def emitExtInstCall (fns : List FnDecl) (mangled : String) (ft : LLVMFnTy) :
    EmitResult :=
  match getFunction fns mangled with
  | some f => ⟨fns, f, false, f.cc, [FnAttr.noUnwind]⟩
  | none =>
    let nf := newBuiltinDecl mangled ft
    ⟨fns ++ [nf], nf, true, nf.cc, [FnAttr.noUnwind]⟩

/-! ## The `ReadSPRV` entry point and the debug dump -/

/-- `DbgSaveTmpLLVM` (SPRVReader.cpp:84). -/
def dbgSaveTmpLLVM : Bool := true

/-- `DbgTmpLLVMFileName` (SPRVReader.cpp:85). -/
def dbgTmpLLVMFileName : String := "_tmp_llvmbil.ll"

/-- `dumpLLVM` (SPRVReader.cpp:94-102), returning the content the named
file holds afterwards.  `raw_fd_ostream` truncates/creates the file and
reports failure through `EC`; the body prints the module only inside
`if (EC)`, i.e. only when opening FAILED, and such a write reaches no
file (`none`).  When the open succeeds the print is skipped and the
file is left holding the empty string. -/
def dumpLLVM (openFailed : Bool) (_moduleText : String) : Option String :=
  if openFailed then
    none
  else
    some ""

/-- The observable outcome of `llvm::ReadSPRV`. -/
structure ReadSPRVResult where
  succeeded : Bool
  outModule : Option Nat
  errMsg : Option String
  moduleDestroyed : Bool
  dumpFileContent : Option (Option String)
  deriving DecidableEq

/-- `llvm::ReadSPRV` (SPRVReader.cpp:1932-1953).  `translateOk` is the
result of `SPRVToLLVM::translate`, `errLog` the module's error log,
`m` the freshly created module handle and `mText` its textual IR.  On
failure the error string is fetched, the module is deleted and the out
pointer nulled; when `DbgSaveTmpLLVM` is set, `dumpLLVM` runs before
returning on both paths. -/
def readSPRV (translateOk : Bool) (errLog : String) (dbgSave : Bool)
    (openFailed : Bool) (m : Nat) (mText : String) : ReadSPRVResult :=
  let errMsg := if translateOk then none else some errLog
  let dumped := if dbgSave then some (dumpLLVM openFailed mText) else none
  if translateOk then
    { succeeded := true, outModule := some m, errMsg := errMsg
      moduleDestroyed := false, dumpFileContent := dumped }
  else
    { succeeded := false, outModule := none, errMsg := errMsg
      moduleDestroyed := true, dumpFileContent := dumped }

/-! ## Helper lemmas -/

theorem lookupAL_setAL_self {α : Type} (l : List (Nat × α)) (k : Nat) (v : α) :
    lookupAL (setAL l k v) k = some v := by
  simp [lookupAL, setAL, List.find?]

theorem lookupAL_filter_out {α : Type} (l : List (Nat × α)) (k : Nat) :
    lookupAL (l.filter (fun p => p.1 != k)) k = none := by
  have h : List.find? (fun p => p.1 == k) (l.filter (fun p => p.1 != k)) = none := by
    rw [List.find?_eq_none]
    intro x hx
    have hmem := List.of_mem_filter hx
    simpa using hmem
  simp [lookupAL, h]

/-! ## Claim theorems -/

/-- Claim C1: a second call to `mapValue` for an already-mapped SPIR-V
value with a different new value — the existing entry being a load of a
global whose name begins with `placeholder.`, exactly what the source
asserts — retargets every use of that load to the new value, detaches
the load and its backing global from the module, overwrites the map
entry with the new value, and returns it. -/
theorem mapValue_replaces_placeholder (st : TransState) (bv v old g : Nat)
    (nm : String)
    (hmap : lookupAL st.valueMap bv = some old)
    (hne : old ≠ v)
    (hload : lookupAL st.loadOperand old = some g)
    (hname : lookupAL st.globalNames g = some nm)
    (hph : strStartsWith nm "placeholder." = true) :
    ∃ st' : TransState,
      mapValue st bv v = some (st', v)
      ∧ lookupAL st'.valueMap bv = some v
      ∧ old ∉ st'.moduleInsts
      ∧ lookupAL st'.globalNames g = none
      ∧ (∀ e ∈ st'.useEdges, e.2 ≠ old)
      ∧ (∀ u : Nat, (u, old) ∈ st.useEdges → u ≠ old → u ≠ g →
          (u, v) ∈ st'.useEdges) := by
  have hbeq : (old == v) = false := by simpa using hne
  refine ⟨{ valueMap := setAL st.valueMap bv v
            loadOperand := st.loadOperand.filter (fun p => p.1 != old)
            globalNames := st.globalNames.filter (fun p => p.1 != g)
            moduleInsts := st.moduleInsts.filter (fun i => i != old)
            useEdges := dropReferencesOf
              (dropReferencesOf (replaceAllUses st.useEdges old v) old) g },
          ?_, ?_, ?_, ?_, ?_, ?_⟩
  · simp [mapValue, hmap, hbeq, hload, hname, hph]
  · exact lookupAL_setAL_self st.valueMap bv v
  · simp [List.mem_filter]
  · exact lookupAL_filter_out st.globalNames g
  · intro e he
    simp only [dropReferencesOf, replaceAllUses, List.mem_filter,
      List.mem_map] at he
    obtain ⟨⟨⟨e0, _, rfl⟩, _⟩, _⟩ := he
    by_cases hc : (e0.2 == old) = true
    · simp only [hc, if_true]
      exact fun hv => hne hv.symm
    · simp only [hc, if_false]
      simpa using hc
  · intro u hu hune hug
    simp only [dropReferencesOf, replaceAllUses, List.mem_filter, List.mem_map]
    refine ⟨⟨⟨(u, old), hu, by simp⟩, by simpa using hune⟩, by simpa using hug⟩

/-- Witness for C1 at a concrete state: SPIR-V value 1 is mapped to the
placeholder load 10 of global 20 named `placeholder.x`, used by 30;
mapping 1 to 40 succeeds. -/
theorem mapValue_replaces_placeholder_witness :
    (mapValue ⟨[(1, 10)], [(10, 20)], [(20, "placeholder.x")], [10, 30],
        [(30, 10)]⟩ 1 40).isSome = true := by
  obtain ⟨st', heq, -, -, -, -, -⟩ :=
    mapValue_replaces_placeholder
      ⟨[(1, 10)], [(10, 20)], [(20, "placeholder.x")], [10, 30], [(30, 10)]⟩
      1 40 10 20 "placeholder.x"
      (by decide) (by decide) (by decide) (by decide) (by decide)
  simp [heq]

/-- Claim C10: calling `mapValue` with a key already mapped to the
identical value returns that value and leaves the translator state —
value map, module contents and use edges — completely unchanged. -/
theorem mapValue_identical_noop (st : TransState) (bv v : Nat)
    (h : lookupAL st.valueMap bv = some v) :
    mapValue st bv v = some (st, v) := by
  simp [mapValue, h]

/-- Witness for C10 at a concrete state. -/
theorem mapValue_identical_noop_witness :
    mapValue ⟨[(1, 5)], [], [], [], []⟩ 1 5
      = some (⟨[(1, 5)], [], [], [], []⟩, 5) :=
  mapValue_identical_noop ⟨[(1, 5)], [], [], [], []⟩ 1 5 (by decide)

/-- Claim C2 fails as stated: the source guards the calling-convention
and attribute assignment with `!F->isIntrinsic()`, so a kernel entry
point whose name lies in the intrinsic namespace (`llvm.`) keeps the
default calling convention instead of `spir_kernel`. -/
theorem transFunctionHeader_intrinsic_kernel_cc :
    (transFunctionHeader true (fun _ => LLVMLinkage.externalLink) 0
        "llvm.foo" []).cc = CallConv.c
    ∧ CallConv.c ≠ CallConv.spirKernel := by
  exact ⟨by decide, by decide⟩

/-- Claim C2 (amended): every translated function gets external linkage
when it is a kernel entry point and the translated SPIR-V linkage kind
otherwise; when the emitted function is not an intrinsic, its calling
convention is `spir_kernel` for kernels and `spir_func` otherwise, and
it carries the no-unwind attribute. -/
theorem transFunctionHeader_amended (isKernel : Bool)
    (linkRmap : Nat → LLVMLinkage) (linkKind : Nat) (name : String)
    (ctl : List FnAttr) :
    (transFunctionHeader isKernel linkRmap linkKind name ctl).linkage
        = (if isKernel then LLVMLinkage.externalLink else linkRmap linkKind)
    ∧ (isIntrinsicName name = false →
        (transFunctionHeader isKernel linkRmap linkKind name ctl).cc
            = (if isKernel then CallConv.spirKernel else CallConv.spirFunc)
        ∧ FnAttr.noUnwind
            ∈ (transFunctionHeader isKernel linkRmap linkKind name ctl).fnAttrs) := by
  cases hI : isIntrinsicName name <;>
    cases isKernel <;>
      simp [transFunctionHeader, hI, isFuncNoUnwind]

/-- Witness for the amended C2 at a concrete non-intrinsic kernel. -/
theorem transFunctionHeader_amended_witness :
    (transFunctionHeader true (fun _ => LLVMLinkage.internalLink) 0 "foo" []).cc
      = CallConv.spirKernel :=
  ((transFunctionHeader_amended true (fun _ => LLVMLinkage.internalLink) 0
      "foo" []).2 (by decide)).1

/-- Claim C3: the addressing model picks the target triple and data
layout — `spir-unknown-unknown` with the 32-bit OpenCL SPIR layout for
Physical32, `spir64-unknown-unknown` with the 64-bit layout for
Physical64 — leaves a fresh module's triple and layout unset for
Logical, and fails with an invalid-addressing-model error otherwise. -/
theorem transAddressingModel_spec (m : ModuleTarget) (n : Nat) :
    transAddressingModel .physical32 m
        = .ok ⟨some spirTargetTriple32, some spirDataLayout32⟩
    ∧ transAddressingModel .physical64 m
        = .ok ⟨some spirTargetTriple64, some spirDataLayout64⟩
    ∧ transAddressingModel .logical ⟨none, none⟩ = .ok ⟨none, none⟩
    ∧ transAddressingModel (.other n) m = .error .invalidAddressingModel :=
  ⟨rfl, rfl, rfl, rfl⟩

/-- Claim C4: a comparison lowered as a builtin call with a bool SPIR-V
result type gets its call return type widened to i32 (scalar) or to a
vector of i32 of the same component count, and the call result is then
truncated back to the translated original bool type. -/
theorem transOCLBuiltinCallShape_cmp_bool (n : Nat) :
    transOCLBuiltinCallShape true (some .boolT)
        = ⟨.intT 32, some (.intT 1)⟩
    ∧ transOCLBuiltinCallShape true (some (.vectorT .boolT n))
        = ⟨.vectorT (.intT 32) n, some (.vectorT (.intT 1) n)⟩ :=
  ⟨rfl, rfl⟩

/-- Claim C5: a conversion carrying an FP rounding mode or the
saturated flag is dispatched to a mangled builtin call — never a direct
IR cast — whose unmangled name is `convert_` followed by the OpenCL
name of the destination type, prefixed with `u` when the source is
unsigned, with `_sat` appended when saturated and `_<rounding>`
appended when a rounding mode is present. -/
theorem transCvtDispatch_builtin (oc : CvtOpCode) (destTy : SPRVType)
    (saturated : Bool) (rounding : Option FPRoundingMode)
    (h : saturated = true ∨ rounding.isSome = true) :
    transCvtDispatch oc destTy saturated rounding
      = .builtinCall
          ((if isCvtFromUnsignedOpCode oc then "u" else "")
            ++ "convert_"
            ++ mapSPRVTypeToOpenCLType destTy (! isCvtToUnsignedOpCode oc)
            ++ (if saturated then "_sat" else "")
            ++ ((rounding.map (fun r => "_" ++ fpRoundingModeName r)).getD "")) := by
  have hc : (rounding.isSome || saturated) = true := by
    rcases h with h | h <;> simp [h]
  cases rounding with
  | none =>
    have hs : saturated = true := by simpa using hc
    simp [transCvtDispatch, getOCLConvertBuiltinName, hs]
  | some r =>
    simp [transCvtDispatch, getOCLConvertBuiltinName]

/-- Witness for C5: `ConvertFToU` to a 32-bit integer with saturation
and rtz yields `convert_uint_sat_rtz` as a builtin call. -/
theorem transCvtDispatch_builtin_witness :
    transCvtDispatch .convertFToU (.intT 32 false) true (some .rtz)
      = .builtinCall "convert_uint_sat_rtz" :=
  (transCvtDispatch_builtin .convertFToU (.intT 32 false) true (some .rtz)
      (Or.inl rfl)).trans (by decide)

/-- Claim C6: `OpCopyMemorySized` emits a call named `llvm.memcpy`
followed by `.p0i8` when the destination pointer's storage class is
`Private` and `.p1i8` otherwise, the same choice for the source
pointer, then `.i32` when the size operand's type is 32 bits wide and
`.i64` otherwise; the call receives exactly the five arguments
`(dst, src, size, align as i32, isvolatile as i1)`. -/
theorem transCopyMemorySized_spec (dsc ssc : SPRVStorageClass)
    (de se : SPRVType) (w : Nat) (sg : Bool)
    (dstV srcV sizeV alignment : Nat) (isVolatile : Bool) :
    transCopyMemorySized (.pointerT dsc de) (.pointerT ssc se) (.intT w sg)
        dstV srcV sizeV alignment isVolatile
      = { funcName := "llvm.memcpy"
            ++ (if dsc = .privateSC then ".p0i8" else ".p1i8")
            ++ (if ssc = .privateSC then ".p0i8" else ".p1i8")
            ++ (if w = 32 then ".i32" else ".i64")
          args := [.operand dstV, .operand srcV, .operand sizeV,
                   .constInt (.intT 32) alignment,
                   .constInt (.intT 1) (if isVolatile then 1 else 0)] } := by
  simp [transCopyMemorySized, getPointerStorageClass, intTypeBitWidth]

/-- Claim C7 fails as stated: the atomic emitter reuses a present
declaration without comparing function types, so no declaration is
created even when the existing one disagrees with the required type. -/
theorem emitAtomicCall_no_redeclaration :
    (emitAtomicCall
        [⟨"_Z10atomic_addPU3AS4VU7_Atomicii",
          ⟨.intT 32, [.pointerT (.intT 32) 1, .intT 32]⟩,
          .spirFunc, [.noUnwind]⟩]
        "_Z10atomic_addPU3AS4VU7_Atomicii"
        ⟨.intT 64, [.pointerT (.intT 64) 1, .intT 64]⟩).createdDecl = false
    ∧ (⟨.intT 32, [.pointerT (.intT 32) 1, .intT 32]⟩ : LLVMFnTy)
        ≠ ⟨.intT 64, [.pointerT (.intT 64) 1, .intT 64]⟩ := by
  exact ⟨by decide, by decide⟩

/-- Claim C7 (amended): the instruction-builtin emitter creates a
callee declaration when the mangled name is absent or the present
declaration's function type disagrees; the atomic, barrier/fence and
ExtInst emitters create one only when the name is absent.  Every
created declaration carries the `spir_func` calling convention and the
no-unwind attribute.  Call sites of the instruction-builtin, atomic and
barrier emitters receive the callee's calling convention and attributes
whenever the callee is not an intrinsic; ExtInst call sites receive the
callee's calling convention and a no-unwind attribute. -/
theorem emitBuiltinCall_amended (fns : List FnDecl) (nm : String)
    (ft : LLVMFnTy) :
    ((emitInstBuiltinCall fns nm ft).createdDecl
        = (match getFunction fns nm with
           | some f => decide (f.fnTy ≠ ft)
           | none => true))
    ∧ (emitAtomicCall fns nm ft).createdDecl = (getFunction fns nm).isNone
    ∧ (emitBarrierFenceCall fns nm ft).createdDecl = (getFunction fns nm).isNone
    ∧ (emitExtInstCall fns nm ft).createdDecl = (getFunction fns nm).isNone
    ∧ ((emitInstBuiltinCall fns nm ft).createdDecl = true →
        (emitInstBuiltinCall fns nm ft).callee = newBuiltinDecl nm ft)
    ∧ ((emitAtomicCall fns nm ft).createdDecl = true →
        (emitAtomicCall fns nm ft).callee = newBuiltinDecl nm ft)
    ∧ ((emitBarrierFenceCall fns nm ft).createdDecl = true →
        (emitBarrierFenceCall fns nm ft).callee = newBuiltinDecl nm ft)
    ∧ ((emitExtInstCall fns nm ft).createdDecl = true →
        (emitExtInstCall fns nm ft).callee = newBuiltinDecl nm ft)
    ∧ (newBuiltinDecl nm ft).cc = CallConv.spirFunc
    ∧ FnAttr.noUnwind ∈ (newBuiltinDecl nm ft).fnAttrs
    ∧ (∀ f : FnDecl, isIntrinsicName f.name = false →
        setAttrByCalledFuncOn f = (f.cc, f.fnAttrs))
    ∧ ((emitInstBuiltinCall fns nm ft).callCC,
        (emitInstBuiltinCall fns nm ft).callAttrs)
        = setAttrByCalledFuncOn (emitInstBuiltinCall fns nm ft).callee
    ∧ ((emitAtomicCall fns nm ft).callCC,
        (emitAtomicCall fns nm ft).callAttrs)
        = setAttrByCalledFuncOn (emitAtomicCall fns nm ft).callee
    ∧ ((emitBarrierFenceCall fns nm ft).callCC,
        (emitBarrierFenceCall fns nm ft).callAttrs)
        = setAttrByCalledFuncOn (emitBarrierFenceCall fns nm ft).callee
    ∧ (emitExtInstCall fns nm ft).callCC = (emitExtInstCall fns nm ft).callee.cc
    ∧ (emitExtInstCall fns nm ft).callAttrs = [FnAttr.noUnwind] := by
  have hsa : ∀ f : FnDecl, isIntrinsicName f.name = false →
      setAttrByCalledFuncOn f = (f.cc, f.fnAttrs) := by
    intro f h
    simp [setAttrByCalledFuncOn, h]
  cases hf : getFunction fns nm with
  | none =>
    refine ⟨?_, ?_, ?_, ?_, ?_, ?_, ?_, ?_, rfl, ?_, hsa, ?_, ?_, ?_, ?_, ?_⟩ <;>
      simp [emitInstBuiltinCall, emitAtomicCall, emitBarrierFenceCall,
        emitExtInstCall, hf, newBuiltinDecl, isFuncNoUnwind]
  | some f =>
    by_cases hty : f.fnTy = ft <;>
      refine ⟨?_, ?_, ?_, ?_, ?_, ?_, ?_, ?_, rfl, ?_, hsa, ?_, ?_, ?_, ?_, ?_⟩ <;>
        simp [emitInstBuiltinCall, emitAtomicCall, emitBarrierFenceCall,
          emitExtInstCall, hf, hty, newBuiltinDecl, isFuncNoUnwind]

/-- Witness for the amended C7 on an empty module: the
instruction-builtin emitter creates the declaration and the callee is
the freshly created spir_func/no-unwind declaration. -/
theorem emitBuiltinCall_amended_witness :
    (emitInstBuiltinCall [] "_Z6islessff" ⟨.intT 32, [.floatT, .floatT]⟩).callee
      = newBuiltinDecl "_Z6islessff" ⟨.intT 32, [.floatT, .floatT]⟩ :=
  (emitBuiltinCall_amended [] "_Z6islessff"
      ⟨.intT 32, [.floatT, .floatT]⟩).2.2.2.2.1 (by decide)

/-- Claim C8: `ReadSPRV` returns failure exactly when translation
fails; on failure the caller-supplied error string is populated from
the module's error log, the partially built module is destroyed and the
out-module pointer is left null; on success the out-module pointer
refers to the translated module. -/
theorem readSPRV_contract (errLog : String) (dbgSave openFailed : Bool)
    (m : Nat) (mText : String) :
    (∀ ok : Bool,
      (readSPRV ok errLog dbgSave openFailed m mText).succeeded = ok)
    ∧ (readSPRV false errLog dbgSave openFailed m mText).errMsg = some errLog
    ∧ (readSPRV false errLog dbgSave openFailed m mText).moduleDestroyed = true
    ∧ (readSPRV false errLog dbgSave openFailed m mText).outModule = none
    ∧ (readSPRV true errLog dbgSave openFailed m mText).outModule = some m := by
  refine ⟨fun ok => ?_, rfl, rfl, rfl, rfl⟩
  cases ok <;> rfl

/-- Claim C9 names a code bug: `dumpLLVM` prints the module only under
`if (EC)`, i.e. only when opening `_tmp_llvmbil.ll` FAILED, so on the
normal path (open succeeds) the file is left empty on both the success
and the failure path of `ReadSPRV`, and the emitted IR text is never
written to it. -/
theorem readSPRV_dump_writes_nothing :
    (readSPRV true "" dbgSaveTmpLLVM false 7 "; ModuleID = m").dumpFileContent
        = some (some "")
    ∧ (readSPRV false "e" dbgSaveTmpLLVM false 7 "; ModuleID = m").dumpFileContent
        = some (some "")
    ∧ ("" : String) ≠ "; ModuleID = m" :=
  ⟨rfl, rfl, by decide⟩

end SPRVReader
